import Mathlib

/-!
Shallow embedding of `src/videocapture.cpp` (namespace `zed`, class
`VideoCapture`) of the zed-open-capture repository, together with theorems
settling the frozen claims about it.

Device and kernel interactions (ioctl results, mmap, the v4l2 and UVC
responses) are modelled by explicit oracle values passed to each embedded
function; the embedded functions reproduce the control flow of the C++
source on those oracles.
-/

namespace zed

/-! ## Constants from the source and from the C library headers -/

/-- errno value EINTR on Linux. -/
def EINTR : Int := 4

/-- errno value EAGAIN on Linux. -/
def EAGAIN : Int := 11

/-- errno value ETIMEDOUT on Linux. -/
def ETIMEDOUT : Int := 110

/-- control id constant `LINUX_CTRL_GAMMA` (line 33 of the source). -/
def LINUX_CTRL_GAMMA : Int := 9963792

/-- constant `DEFAULT_MIN_GAMMA` (line 35). -/
def DEFAULT_MIN_GAMMA : Int := 1

/-- constant `DEFAULT_MAX_GAMMA` (line 36). -/
def DEFAULT_MAX_GAMMA : Int := 9

/-- constant `READ_MODE` (line 19). -/
def READ_MODE : Nat := 1

/-! ## C1 : `checkResFps` (lines 113-186)

Only the fps negotiation is embedded: the width/height assignment on lines
115-116 reads the `cameraResolution` table declared in the header (not under
`src/`) and plays no role in the fps claims. -/

/-- enumeration `RESOLUTION` whose constructors appear in the `switch` of
`checkResFps` (the enum itself is declared in the header). -/
inductive RESOLUTION where
  | HD2K
  | HD1080
  | HD720
  | VGA
deriving DecidableEq

/-- fps negotiation of `VideoCapture::checkResFps` (lines 119-172): each
resolution tier keeps a requested fps belonging to its supported set and
snaps any other request using the fixed thresholds of the source. -/
def checkResFps : RESOLUTION → Int → Int
  | RESOLUTION.HD2K, fps =>
      if fps ≠ 15 then 15 else fps
  | RESOLUTION.HD1080, fps =>
      if fps ≠ 15 ∧ fps ≠ 30 then
        (if fps ≤ 22 then 15 else 30)
      else fps
  | RESOLUTION.HD720, fps =>
      if fps ≠ 15 ∧ fps ≠ 30 ∧ fps ≠ 60 then
        (if fps ≤ 22 then 15 else if fps < 45 then 30 else 60)
      else fps
  | RESOLUTION.VGA, fps =>
      if fps ≠ 15 ∧ fps ≠ 30 ∧ fps ≠ 60 ∧ fps ≠ 100 then
        (if fps ≤ 22 then 15
         else if fps < 45 then 30
         else if fps < 80 then 60
         else 100)
      else fps

/-- supported fps set of each resolution tier, as documented. -/
def supportedFps : RESOLUTION → Int → Prop
  | RESOLUTION.HD2K, f => f = 15
  | RESOLUTION.HD1080, f => f = 15 ∨ f = 30
  | RESOLUTION.HD720, f => f = 15 ∨ f = 30 ∨ f = 60
  | RESOLUTION.VGA, f => f = 15 ∨ f = 30 ∨ f = 60 ∨ f = 100

/-! ## C3 / C4 : `setCameraControlSettings` (lines 948-987) and
`resetCameraControlSettings` (lines 989-1005)

The device's answer to the `VIDIOC_QUERYCTRL` ioctl is the oracle: `some q`
when the ioctl returns 0 with the queried descriptor, `none` when it fails
(in which case the `v4l2_queryctrl` fields keep their `memset` zeroes, so
the default value read by the source is 0). The returned value is the value
written by `VIDIOC_S_CTRL`, or `none` when no write ioctl is issued. -/

/-- fields of `struct v4l2_queryctrl` read by the source. -/
structure QueryCtrl where
  minimum : Int
  maximum : Int
  step : Int
  default_value : Int
deriving DecidableEq

/-- embedding of `VideoCapture::setCameraControlSettings` (lines 948-987):
on a successful range query the bounds are the queried ones, except the
gamma control whose bounds are overridden to [1,9]; on a failed query the
fallback bounds [0,6500] are used for every control. The write is issued
only when the value lies inside the chosen bounds. -/
def setCameraControlSettings (query : Option QueryCtrl) (ctrl_id ctrl_val : Int) :
    Option Int :=
  let bounds : Int × Int :=
    match query with
    | some q =>
        if ctrl_id = LINUX_CTRL_GAMMA then (DEFAULT_MIN_GAMMA, DEFAULT_MAX_GAMMA)
        else (q.minimum, q.maximum)
    | none => (0, 6500)
  if bounds.1 ≤ ctrl_val ∧ ctrl_val ≤ bounds.2 then some ctrl_val else none

/-- embedding of `VideoCapture::resetCameraControlSettings` (lines 989-1005):
the `VIDIOC_QUERYCTRL` result is not checked; the `default_value` field
(0 when the query failed and left the `memset` zeroes) is written
unconditionally through `VIDIOC_S_CTRL`, with no range check and no gamma
override. The returned value is the value written. -/
def resetCameraControlSettings (query : Option QueryCtrl) (_ctrl_id : Int) : Int :=
  match query with
  | some q => q.default_value
  | none => 0

/-! ## C6 : `xioctl` (lines 513-535) -/

/-- transient errno classification in the `while` condition of `xioctl`
(line 524). -/
def transientErrno (e : Int) : Bool :=
  e = EINTR ∨ e = EAGAIN ∨ e = ETIMEDOUT

/-- one run of the do-while loop of `VideoCapture::xioctl` (lines 515-535).
The oracle gives each attempt's outcome: `none` means the `ioctl` returned 0,
`some e` means it failed with errno `e`. `i` is the index of the next
attempt and `tries` the current value of the `tries` counter at the coming
post-decrement test (`tries--` tests the old value, so the body can run once
more after the test that takes `tries` from 1 to 0). Returns the total
number of attempts made and the final outcome. -/
def xioctlLoop (oracle : Nat → Option Int) : Nat → Nat → Nat × Option Int
  | i, 0 =>
    match oracle i with
    | none => (i + 1, none)
    | some e => (i + 1, some e)
  | i, t + 1 =>
    match oracle i with
    | none => (i + 1, none)
    | some e =>
      if transientErrno e then xioctlLoop oracle (i + 1) t
      else (i + 1, some e)

/-- embedding of `VideoCapture::xioctl`: the loop starts with
`tries = IOCTL_RETRY = 3` (line 513). -/
def xioctlRun (oracle : Nat → Option Int) : Nat × Option Int :=
  xioctlLoop oracle 0 3

/-! ## C7 : `linux_cbs_VendorControl` (lines 705-813) -/

/-- oracle for the up to three `UVCIOC_CTRL_QUERY` ioctls issued by one
vendor-control transaction. `negotiatedLen` is the length answered by the
`UVC_GET_LEN` query (lines 729: it only sizes the two following transfers,
so it does not influence the modelled control flow). -/
structure VCOracle where
  getLenFail : Bool
  negotiatedLen : Nat
  setCurErr : Option Int
  getCurErr : Option Int

/-- embedding of `VideoCapture::linux_cbs_VendorControl` (lines 705-813).
Returns the function result, the number of `ioctl` calls issued on the
device handle, and whether the `UVC_SET_CUR` write carrying the command
buffer reached the device (used by the GPIO layer to know whether the
command took effect). -/
def linux_cbs_VendorControl (initialized : Bool) (len : Int) (readMode : Nat)
    (o : VCOracle) : Int × Nat × Bool :=
  if len > 384 then (-2, 0, false)
  else if ¬initialized then (-3, 0, false)
  else if o.getLenFail then (-4, 1, false)
  else
    match o.setCurErr with
    | some _ => (-1, 2, false)
    | none =>
      if readMode = READ_MODE then
        match o.getCurErr with
        | some _ => (-1, 3, true)
        | none => (0, 3, true)
      else (0, 2, true)

/-! ## Theorems for C1 -/

/-- C1: for every requested (resolution, fps) pair the fps held after
`checkResFps` is a member of that resolution's supported set
(2K: {15}; 1080p: {15,30}; 720p: {15,30,60}; VGA: {15,30,60,100}), and the
documented threshold examples hold: VGA 70 → 60, VGA 85 → 100,
720p 50 → 60, 1080p 20 → 15. -/
theorem checkResFps_supported :
    (∀ res fps, supportedFps res (checkResFps res fps)) ∧
    checkResFps RESOLUTION.VGA 70 = 60 ∧
    checkResFps RESOLUTION.VGA 85 = 100 ∧
    checkResFps RESOLUTION.HD720 50 = 60 ∧
    checkResFps RESOLUTION.HD1080 20 = 15 := by
  refine ⟨?_, by decide, by decide, by decide, by decide⟩
  intro res fps
  cases res <;> simp only [checkResFps, supportedFps] <;> split_ifs <;> omega

/-! ## Theorems for C3 -/

/-- C3 counterexample: for the gamma control, whose effective range the claim
says is always the fixed [1,9], a request of 100 when the range query fails
is written anyway — the source falls back to the range [0,6500] and applies
no gamma override on that path. -/
theorem setCameraControlSettings_gamma_queryFail_writes :
    ¬(DEFAULT_MIN_GAMMA ≤ (100 : Int) ∧ (100 : Int) ≤ DEFAULT_MAX_GAMMA) ∧
    setCameraControlSettings none LINUX_CTRL_GAMMA 100 = some 100 := by
  decide

/-- C3 amended: when the range query succeeds, a request outside the
effective range (the queried [min,max], with the gamma control overridden to
the fixed [1,9]) issues no write to the device; when the range query fails,
the effective range is instead the fixed fallback [0,6500] for every
control, gamma included, and a request outside it issues no write. -/
theorem setCameraControlSettings_refuses_out_of_range :
    ∀ (q : QueryCtrl) (id v : Int),
      (id ≠ LINUX_CTRL_GAMMA → ¬(q.minimum ≤ v ∧ v ≤ q.maximum) →
        setCameraControlSettings (some q) id v = none) ∧
      (id = LINUX_CTRL_GAMMA → ¬(DEFAULT_MIN_GAMMA ≤ v ∧ v ≤ DEFAULT_MAX_GAMMA) →
        setCameraControlSettings (some q) id v = none) ∧
      (¬((0 : Int) ≤ v ∧ v ≤ 6500) → setCameraControlSettings none id v = none) := by
  intro q id v
  refine ⟨fun hid hout => ?_, fun hid hout => ?_, fun hout => ?_⟩ <;>
    simp only [setCameraControlSettings] <;> split_ifs <;> simp_all

/-- concrete instance of `setCameraControlSettings_refuses_out_of_range`:
brightness (id 9963776) with queried range [0,100] refuses a request of 200,
and a failed query refuses a request of 7000. -/
theorem setCameraControlSettings_refuses_out_of_range_witness :
    setCameraControlSettings (some ⟨0, 100, 1, 50⟩) 9963776 200 = none ∧
    setCameraControlSettings none 9963776 7000 = none :=
  ⟨(setCameraControlSettings_refuses_out_of_range ⟨0, 100, 1, 50⟩ 9963776 200).1
      (by decide) (by decide),
   (setCameraControlSettings_refuses_out_of_range ⟨0, 100, 1, 50⟩ 9963776 7000).2.2
      (by decide)⟩

/-! ## Theorems for C4 -/

/-- C4 counterexample: for the gamma control with a queried default of 100,
`resetCameraControlSettings` writes 100 unclamped, although the claim says
the written value is clamped to the fixed range [1,9]. -/
theorem resetCameraControlSettings_gamma_not_clamped :
    resetCameraControlSettings (some ⟨0, 6500, 1, 100⟩) LINUX_CTRL_GAMMA = 100 ∧
    ¬((100 : Int) ≤ DEFAULT_MAX_GAMMA) := by
  decide

/-- C4 amended: `resetCameraControlSettings` writes the freshly queried
default value unconditionally for every control id — it does not route the
write through `setCameraControlSettings`, so no clamp is applied, not even
the gamma [1,9] override — and writes 0 when the range query fails (the
`memset` zero of the untouched descriptor). -/
theorem resetCameraControlSettings_writes_raw_default :
    ∀ (q : QueryCtrl) (id : Int),
      resetCameraControlSettings (some q) id = q.default_value ∧
      resetCameraControlSettings none id = 0 :=
  fun _ _ => ⟨rfl, rfl⟩

/-! ## Theorems for C6 -/

/-- the attempt counter of `xioctlLoop` grows by at least one and by at most
`tries + 1`. -/
theorem xioctlLoop_fst_le (oracle : Nat → Option Int) :
    ∀ tries i, (xioctlLoop oracle i tries).1 ≤ i + tries + 1 := by
  intro tries
  induction tries with
  | zero =>
    intro i
    simp only [xioctlLoop]
    cases oracle i <;> simp
  | succ t ih =>
    intro i
    simp only [xioctlLoop]
    cases oracle i with
    | none => simp
    | some e =>
      by_cases h : transientErrno e
      · simp only [h, if_true]
        have := ih (i + 1)
        omega
      · simp only [h, Bool.false_eq_true, if_false]
        omega

/-- every attempt of `xioctlLoop` other than the last one failed with a
transient errno. -/
theorem xioctlLoop_retries_transient (oracle : Nat → Option Int) :
    ∀ tries i j, i ≤ j → j + 1 < (xioctlLoop oracle i tries).1 →
      ∃ e, oracle j = some e ∧ transientErrno e = true := by
  intro tries
  induction tries with
  | zero =>
    intro i j hij hlt
    simp only [xioctlLoop] at hlt
    cases h : oracle i <;> simp [h] at hlt <;> omega
  | succ t ih =>
    intro i j hij hlt
    simp only [xioctlLoop] at hlt
    cases h : oracle i with
    | none => simp [h] at hlt; omega
    | some e =>
      simp only [h] at hlt
      by_cases htr : transientErrno e
      · simp only [htr, if_true] at hlt
        rcases Nat.eq_or_lt_of_le hij with heq | hgt
        · exact ⟨e, heq ▸ h, htr⟩
        · exact ih (i + 1) j hgt hlt
      · simp only [htr, Bool.false_eq_true, if_false] at hlt
        omega

/-- C6 amended: `xioctl` attempts the underlying ioctl at most 4 times in
total (the initial attempt plus up to `IOCTL_RETRY = 3` retries: the
post-decrement `tries--` lets the body run once more after the test that
takes `tries` from 1 to 0), and a failed attempt is repeated only when its
errno is EINTR, EAGAIN or ETIMEDOUT — any other failure is returned
immediately without a further attempt. -/
theorem xioctl_attempt_bound :
    ∀ oracle : Nat → Option Int,
      (xioctlRun oracle).1 ≤ 4 ∧
      (∀ j, j + 1 < (xioctlRun oracle).1 →
        ∃ e, oracle j = some e ∧ transientErrno e = true) := by
  intro oracle
  refine ⟨?_, fun j hj => xioctlLoop_retries_transient oracle 3 0 j (Nat.zero_le j) hj⟩
  have := xioctlLoop_fst_le oracle 3 0
  simpa [xioctlRun] using this

/-- concrete instance of `xioctl_attempt_bound`: with every attempt failing
as EINTR, the run stays within 4 attempts and its first attempt is a
transient failure. -/
theorem xioctl_attempt_bound_witness :
    (xioctlRun (fun _ => some EINTR)).1 ≤ 4 ∧
    (∃ e, (fun _ => some EINTR) 0 = some e ∧ transientErrno e = true) :=
  ⟨(xioctl_attempt_bound (fun _ => some EINTR)).1,
   (xioctl_attempt_bound (fun _ => some EINTR)).2 0 (by decide)⟩

/-- C6 counterexample: with every attempt failing as EINTR (transient), the
ioctl is attempted 4 times in total, refuting "at most 3 times in total". -/
theorem xioctl_four_attempts :
    (xioctlRun (fun _ => some EINTR)).1 = 4 ∧
    ¬((xioctlRun (fun _ => some EINTR)).1 ≤ 3) := by
  decide

/-! ## Theorems for C7 -/

/-- C7: whenever the command buffer length exceeds 384 bytes or the device
is not fully initialized, `linux_cbs_VendorControl` returns an error (a
negative result) and issues no ioctl on the device handle. -/
theorem vendorControl_rejects_before_io :
    ∀ (ini : Bool) (len : Int) (rm : Nat) (o : VCOracle),
      (len > 384 ∨ ini = false) →
      (linux_cbs_VendorControl ini len rm o).1 < 0 ∧
      (linux_cbs_VendorControl ini len rm o).2.1 = 0 := by
  intro ini len rm o h
  simp only [linux_cbs_VendorControl]
  rcases h with h | h
  · simp [h]
  · subst h
    split_ifs <;> simp_all

/-- concrete instance of `vendorControl_rejects_before_io`: an uninitialized
device with a 10-byte command is rejected with no ioctl issued. -/
theorem vendorControl_rejects_before_io_witness :
    (linux_cbs_VendorControl false 10 0 ⟨false, 384, none, none⟩).1 < 0 ∧
    (linux_cbs_VendorControl false 10 0 ⟨false, 384, none, none⟩).2.1 = 0 :=
  vendorControl_rejects_before_io false 10 0 ⟨false, 384, none, none⟩ (Or.inr rfl)

/-! ## C5 : GPIO / LED layer (lines 821-925)

The device-side GPIO state observable through the vendor GPIO interface is a
direction and a value per line. A command buffer delivered by a successful
`UVC_SET_CUR` (the `Bool` component of `linux_cbs_VendorControl`) takes
effect on that state; a failed transaction leaves it unchanged. Each GPIO
helper consumes one `VCOracle` for its single vendor-control transaction. -/

/-- device-side GPIO state: per-line direction and value. -/
structure GpioDev where
  dir : Nat → Nat
  val : Nat → Nat

/-- embedding of `VideoCapture::linux_cbs_get_gpio_value` (lines 821-834):
command [0x51, 0x13, line] sent with length 384 in read mode; the value is
byte 17 of the read-back buffer — the device's stored value when the whole
transaction succeeded, the `memset` zero otherwise. Returns (result, value
read, device state — unchanged, a get does not mutate the device). -/
def linux_cbs_get_gpio_value (ini : Bool) (o : VCOracle) (d : GpioDev)
    (gpio_number : Nat) : Int × Nat × GpioDev :=
  let r := linux_cbs_VendorControl ini 384 1 o
  (r.1, if r.1 = 0 then d.val gpio_number else 0, d)

/-- embedding of `VideoCapture::linux_cbs_set_gpio_value` (lines 842-855):
command [0x50, 0x12, line, value] sent with length 64 in write mode; the
value is stored when the command buffer is delivered. The last component
lists the GPIO value writes that reached the device. -/
def linux_cbs_set_gpio_value (ini : Bool) (o : VCOracle) (d : GpioDev)
    (gpio_number value : Nat) : Int × GpioDev × List (Nat × Nat) :=
  let r := linux_cbs_VendorControl ini 64 0 o
  if r.2.2 then
    (r.1, { d with val := fun m => if m = gpio_number then value else d.val m },
     [(gpio_number, value)])
  else (r.1, d, [])

/-- embedding of `VideoCapture::linux_cbs_set_gpio_direction` (lines
863-876): command [0x50, 0x10, line, direction] sent with length 64 in
write mode; the direction is stored when the command buffer is delivered. -/
def linux_cbs_set_gpio_direction (ini : Bool) (o : VCOracle) (d : GpioDev)
    (gpio_number direction : Nat) : Int × GpioDev :=
  let r := linux_cbs_VendorControl ini 64 0 o
  if r.2.2 then
    (r.1, { d with dir := fun m => if m = gpio_number then direction else d.dir m })
  else (r.1, d)

/-- embedding of `VideoCapture::setLEDValue` (lines 878-891): direction of
GPIO line 2 set to output (0), then its value written as 1 or 0; the two
results are summed. -/
def setLEDValue (ini : Bool) (o1 o2 : VCOracle) (d : GpioDev) (display : Bool) :
    Int × GpioDev × List (Nat × Nat) :=
  let s1 := linux_cbs_set_gpio_direction ini o1 d 2 0
  let s2 := linux_cbs_set_gpio_value ini o2 s1.2 2 (if display then 1 else 0)
  (s1.1 + s2.1, s2.2.1, s2.2.2)

/-- embedding of `VideoCapture::getLEDValue` (lines 893-905) with a non-null
out pointer: direction of GPIO line 2 set to input (1), then its value read;
the two results are summed and the read value compared to 0. -/
def getLEDValue (ini : Bool) (o1 o2 : VCOracle) (d : GpioDev) :
    Int × Bool × GpioDev :=
  let s1 := linux_cbs_set_gpio_direction ini o1 d 2 1
  let s2 := linux_cbs_get_gpio_value ini o2 s1.2 2
  (s1.1 + s2.1, s2.2.1 ≠ 0, s2.2.2)

/-- embedding of `VideoCapture::toggleLED` (lines 907-925): read the current
LED value through `getLEDValue`; only when that read returns 0 write the
logical negation through `setLEDValue`; otherwise return the read's failure
code. The last component lists the GPIO value writes that reached the
device during the call. -/
def toggleLED (ini : Bool) (o1 o2 o3 o4 : VCOracle) (d : GpioDev) :
    Int × GpioDev × List (Nat × Nat) :=
  let g := getLEDValue ini o1 o2 d
  if g.1 = 0 then
    let s := setLEDValue ini o3 o4 g.2.2 (!g.2.1)
    (s.1, s.2.1, s.2.2)
  else (g.1, g.2.2, [])

/-! ## Theorems for C5 -/

/-- effect of `getLEDValue` on the device: GPIO values are never mutated and
only the direction of line 2 can change (set to input by its first step). -/
theorem getLEDValue_dev_effect (ini : Bool) (o1 o2 : VCOracle) (d : GpioDev) :
    ((getLEDValue ini o1 o2 d).2.2.val = d.val) ∧
    (∀ n, n ≠ 2 → (getLEDValue ini o1 o2 d).2.2.dir n = d.dir n) := by
  simp only [getLEDValue, linux_cbs_get_gpio_value, linux_cbs_set_gpio_direction]
  by_cases h : (linux_cbs_VendorControl ini 64 0 o1).2.2
  · exact ⟨by simp [h], fun n hn => by simp [h, hn]⟩
  · exact ⟨by simp [h], fun n hn => by simp [h]⟩

/-- C5 amended: when the initial read of the LED value fails (returns
nonzero), `toggleLED` returns that failure code and performs no GPIO value
write — every GPIO value observable through the interface is unchanged —
but the read itself begins by setting the direction of GPIO line 2 to
input, so the direction state of line 2 may have been mutated by the call
(directions of all other lines are unchanged). -/
theorem toggleLED_failed_read_no_value_write :
    ∀ (ini : Bool) (o1 o2 o3 o4 : VCOracle) (d : GpioDev),
      (getLEDValue ini o1 o2 d).1 ≠ 0 →
      toggleLED ini o1 o2 o3 o4 d =
        ((getLEDValue ini o1 o2 d).1, (getLEDValue ini o1 o2 d).2.2, []) ∧
      (∀ n, (toggleLED ini o1 o2 o3 o4 d).2.1.val n = d.val n) ∧
      (∀ n, n ≠ 2 → (toggleLED ini o1 o2 o3 o4 d).2.1.dir n = d.dir n) := by
  intro ini o1 o2 o3 o4 d h
  have heq : toggleLED ini o1 o2 o3 o4 d =
      ((getLEDValue ini o1 o2 d).1, (getLEDValue ini o1 o2 d).2.2, []) := by
    simp only [toggleLED, if_neg h]
  refine ⟨heq, fun n => ?_, fun n hn => ?_⟩
  · rw [heq]
    exact congrFun (getLEDValue_dev_effect ini o1 o2 d).1 n
  · rw [heq]
    exact (getLEDValue_dev_effect ini o1 o2 d).2 n hn

/-- concrete instance of `toggleLED_failed_read_no_value_write`: with an
uninitialized device every vendor transaction fails, the read returns a
nonzero code, no value write happens and GPIO values stay unchanged. -/
theorem toggleLED_failed_read_no_value_write_witness :
    toggleLED false ⟨false, 384, none, none⟩ ⟨false, 384, none, none⟩
        ⟨false, 384, none, none⟩ ⟨false, 384, none, none⟩
        ⟨fun _ => 0, fun _ => 0⟩ =
      ((getLEDValue false ⟨false, 384, none, none⟩ ⟨false, 384, none, none⟩
          ⟨fun _ => 0, fun _ => 0⟩).1,
       (getLEDValue false ⟨false, 384, none, none⟩ ⟨false, 384, none, none⟩
          ⟨fun _ => 0, fun _ => 0⟩).2.2, []) ∧
    (toggleLED false ⟨false, 384, none, none⟩ ⟨false, 384, none, none⟩
        ⟨false, 384, none, none⟩ ⟨false, 384, none, none⟩
        ⟨fun _ => 0, fun _ => 0⟩).2.1.val 5 = 0 ∧
    (toggleLED false ⟨false, 384, none, none⟩ ⟨false, 384, none, none⟩
        ⟨false, 384, none, none⟩ ⟨false, 384, none, none⟩
        ⟨fun _ => 0, fun _ => 0⟩).2.1.dir 3 = 0 :=
  ⟨(toggleLED_failed_read_no_value_write false ⟨false, 384, none, none⟩
      ⟨false, 384, none, none⟩ ⟨false, 384, none, none⟩ ⟨false, 384, none, none⟩
      ⟨fun _ => 0, fun _ => 0⟩ (by decide)).1,
   (toggleLED_failed_read_no_value_write false ⟨false, 384, none, none⟩
      ⟨false, 384, none, none⟩ ⟨false, 384, none, none⟩ ⟨false, 384, none, none⟩
      ⟨fun _ => 0, fun _ => 0⟩ (by decide)).2.1 5,
   (toggleLED_failed_read_no_value_write false ⟨false, 384, none, none⟩
      ⟨false, 384, none, none⟩ ⟨false, 384, none, none⟩ ⟨false, 384, none, none⟩
      ⟨fun _ => 0, fun _ => 0⟩ (by decide)).2.2 3 (by decide)⟩

/-- C5 counterexample: the initial read fails (the `UVC_GET_CUR` of the
value read-back fails after the direction command was delivered), toggleLED
returns the failure and writes no GPIO value, yet the device state
observable through the GPIO interface has changed: the direction of line 2
went from output (0) to input (1). -/
theorem toggleLED_failed_read_mutates_direction :
    (toggleLED true ⟨false, 384, none, none⟩ ⟨false, 384, none, some 5⟩
        ⟨false, 384, none, none⟩ ⟨false, 384, none, none⟩
        ⟨fun _ => 0, fun _ => 0⟩).1 ≠ 0 ∧
    (toggleLED true ⟨false, 384, none, none⟩ ⟨false, 384, none, some 5⟩
        ⟨false, 384, none, none⟩ ⟨false, 384, none, none⟩
        ⟨fun _ => 0, fun _ => 0⟩).2.2 = [] ∧
    (GpioDev.mk (fun _ => 0) (fun _ => 0)).dir 2 = 0 ∧
    (toggleLED true ⟨false, 384, none, none⟩ ⟨false, 384, none, some 5⟩
        ⟨false, 384, none, none⟩ ⟨false, 384, none, none⟩
        ⟨fun _ => 0, fun _ => 0⟩).2.1.dir 2 = 1 := by
  refine ⟨by decide, by decide, rfl, by decide⟩

/-! ## C2 / C8 : `openCamera` (lines 226-442) and `reset` (lines 63-111)

The session state tracks, besides the member variables the two functions
touch, the list of memory mappings created during the session: entry `j` of
`mappings` is `true` while the `j`-th `mmap` region of the session is still
mapped. `mBuffers` is the malloc'd buffer array, holding the mapping index
of each of its records (`none` models the null pointer). -/

/-- enumeration `SL_DEVICE` whose constructors appear in `getCameraModel`
(lines 537-601; the enum itself is declared in the header). -/
inductive SL_DEVICE where
  | NONE
  | ZED
  | ZED_M
  | ZED_CBS
  | ZED_M_CBS
  | ZED_2_CBS
deriving DecidableEq

/-- negotiated pixel format read back from the `VIDIOC_S_FMT` ioctl. -/
structure FmtPix where
  width : Int
  height : Int
  bytesperline : Int
deriving DecidableEq

/-- oracle of the device and kernel responses during one `openCamera`
attempt: the camera model identified from sysfs, the outcomes of `stat`,
`S_ISCHR`, `open`, `VIDIOC_QUERYCAP`, `VIDIOC_S_FMT`, `VIDIOC_REQBUFS`
(granted buffer count) and of each per-index `VIDIOC_QUERYBUF` (buffer
length). -/
structure OpenOracle where
  cameraModel : SL_DEVICE
  statOk : Bool
  isChr : Bool
  openFd : Option Int
  querycapOk : Bool
  sFmt : Option FmtPix
  reqbufs : Option Nat
  querybuf : Nat → Option Nat

/-- session state of a `VideoCapture` instance: the member variables read or
written by `openCamera` and `reset`, plus the session's mapping list. -/
structure CamState where
  mVerbose : Bool
  mInitialized : Bool
  mFileDesc : Int
  mWidth : Int
  mHeight : Int
  mChannels : Int
  mBufCount : Nat
  mBuffers : Option (List Nat)
  mappings : List Bool
  mLastFrameData : Bool
  mStopCapture : Bool
deriving DecidableEq

/-- buffer query/mmap loop of `openCamera` (lines 408-436): `i` is the loop
counter `mBufCount`, `r` the remaining iterations up to `req.count`. A
failed `VIDIOC_QUERYBUF` aborts the whole open, leaving the mappings
already created in place and `mBufCount` at the number of buffers mapped so
far; each successful iteration `mmap`s a new region and records its index
in the buffer array. -/
def mapBuffersLoop (querybuf : Nat → Option Nat) : Nat → Nat → CamState → Bool × CamState
  | _, 0, s => (true, s)
  | i, r + 1, s =>
    match querybuf i with
    | none => (false, { s with mBufCount := i })
    | some _len =>
      mapBuffersLoop querybuf (i + 1) r
        { s with
          mappings := s.mappings ++ [true],
          mBuffers := some (s.mBuffers.getD [] ++ [s.mappings.length]) }

/-- embedding of `VideoCapture::openCamera` (lines 226-442). The requested
width and height are the entry values of `mWidth`/`mHeight` set by
`checkResFps`, captured as `width_tmp`/`height_tmp` (lines 340-341) before
`VIDIOC_S_FMT` overwrites them with the negotiated format. Quirks kept from
the source: a failed `stat` or a non-character device aborts only in
verbose mode (the `return false` of lines 267 and 278 sits inside
`if(mVerbose)`), and a failed `input_set_framerate` is only logged
(lines 367-370). -/
def openCamera (o : OpenOracle) (s0 : CamState) : Bool × CamState :=
  if o.cameraModel = SL_DEVICE.NONE then (false, s0)
  else if o.cameraModel = SL_DEVICE.ZED ∨ o.cameraModel = SL_DEVICE.ZED_M then
    (false, s0)
  else if ¬o.statOk ∧ s0.mVerbose then (false, s0)
  else if ¬o.isChr ∧ s0.mVerbose then (false, s0)
  else
    match o.openFd with
    | none => (false, { s0 with mFileDesc := -1 })
    | some fd =>
      let s2 := { s0 with mFileDesc := fd }
      if ¬o.querycapOk then (false, s2)
      else
        match o.sFmt with
        | none => (false, s2)
        | some f =>
          let width_tmp := s2.mWidth
          let height_tmp := s2.mHeight
          let s3 := { s2 with mWidth := f.width, mHeight := f.height,
                              mChannels := f.bytesperline / f.width }
          if f.width ≠ width_tmp ∨ f.height ≠ height_tmp then (false, s3)
          else
            let s4 := { s3 with mLastFrameData := true }
            match o.reqbufs with
            | none => (false, s4)
            | some count =>
              let s5 := { s4 with mBuffers := some [] }
              let r := mapBuffersLoop o.querybuf 0 count s5
              if r.1 then (true, { r.2 with mBufCount := count }) else (false, r.2)

/-- one `munmap` call on mapping index `i`. -/
def unmapOne (ms : List Bool) (i : Nat) : List Bool := ms.set i false

/-- embedding of `VideoCapture::reset` (lines 63-111) as a session-state
transformer. The `setLEDValue(false)` call, the thread join and the
`VIDIOC_STREAMOFF` ioctl touch only the device, not the state modelled
here. The buffer array is unmapped and freed only under the guard
`mInitialized && mBuffers` (line 81); the unmap loop `munmap`s the first
`mBufCount` records of the array (lines 83-84). The handle is closed
whenever `mFileDesc` is nonzero (line 92) and the frame payload is deleted
when present (lines 98-102); `mInitialized` ends false (line 110). -/
def reset (s0 : CamState) : CamState :=
  let s1 := { s0 with mStopCapture := true }
  let s2 :=
    if s1.mInitialized ∧ s1.mBuffers.isSome then
      { s1 with
        mappings := ((s1.mBuffers.getD []).take s1.mBufCount).foldl unmapOne s1.mappings,
        mBuffers := none }
    else s1
  let s3 := if s2.mFileDesc ≠ 0 then { s2 with mFileDesc := -1 } else s2
  let s4 := if s3.mLastFrameData then { s3 with mLastFrameData := false } else s3
  { s4 with mInitialized := false }

/-! ## Theorems for C8 -/

/-- C8: whenever the format the device reports after negotiation differs in
width or height from the requested one, `openCamera` returns failure — it
never proceeds with a substituted resolution (and any earlier failure also
returns failure, so the open never succeeds with a mismatched format). -/
theorem openCamera_fails_on_resolution_mismatch :
    ∀ (o : OpenOracle) (s : CamState) (f : FmtPix),
      o.sFmt = some f →
      (f.width ≠ s.mWidth ∨ f.height ≠ s.mHeight) →
      (openCamera o s).1 = false := by
  intro o s f hf hne
  simp only [openCamera, hf]
  repeat' split
  all_goals simp_all

/-- device responses negotiating 2560x720 although 4416x1242 is requested. -/
def mismatchOracle : OpenOracle :=
  { cameraModel := SL_DEVICE.ZED_CBS, statOk := true, isChr := true,
    openFd := some 3, querycapOk := true,
    sFmt := some ⟨2560, 720, 5120⟩, reqbufs := some 4,
    querybuf := fun _ => some 1000 }

/-- session state at construction, before any open: nothing initialized or
mapped, handle closed, 2K mode 4416x1242 requested by `checkResFps`. -/
def freshState : CamState :=
  { mVerbose := false, mInitialized := false, mFileDesc := -1,
    mWidth := 4416, mHeight := 1242, mChannels := 0,
    mBufCount := 4, mBuffers := none, mappings := [],
    mLastFrameData := false, mStopCapture := false }

/-- concrete instance of `openCamera_fails_on_resolution_mismatch`: a device
negotiating 2560x720 instead of the requested 4416x1242 makes the open
fail. -/
theorem openCamera_fails_on_resolution_mismatch_witness :
    (openCamera mismatchOracle freshState).1 = false :=
  openCamera_fails_on_resolution_mismatch mismatchOracle freshState
    ⟨2560, 720, 5120⟩ rfl (by decide)


/-! ## Theorems for C2 -/

/-- membership in a fold of `munmap` steps: every element of the resulting
mapping list is either false (unmapped) or an element of the original list
whose index the fold never touched. -/
theorem mem_foldl_unmapOne :
    ∀ (idxs : List Nat) (ms : List Bool) (b : Bool),
      b ∈ idxs.foldl unmapOne ms →
      b = false ∨ ∃ j : Nat, ms[j]? = some b ∧ j ∉ idxs := by
  intro idxs
  induction idxs with
  | nil =>
    intro ms b hb
    simp only [List.foldl_nil] at hb
    obtain ⟨j, hj, hv⟩ := List.getElem_of_mem hb
    exact Or.inr ⟨j, by simp [List.getElem?_eq_getElem hj, hv], by simp⟩
  | cons i rest ih =>
    intro ms b hb
    simp only [List.foldl_cons] at hb
    rcases ih (unmapOne ms i) b hb with h | ⟨j, hj, hjn⟩
    · exact Or.inl h
    · by_cases hij : i = j
      · subst hij
        by_cases hlen : i < ms.length
        · left
          have hset : (unmapOne ms i)[i]? = some false := by
            simp [unmapOne, List.getElem?_set_self, hlen]
          rw [hset] at hj
          exact (Option.some.inj hj).symm
        · exfalso
          have hnone : (unmapOne ms i)[i]? = none := by
            simp only [unmapOne]
            rw [List.getElem?_eq_none]
            simpa using Nat.le_of_not_lt hlen
          rw [hnone] at hj
          exact Option.noConfusion hj
      · right
        refine ⟨j, ?_, ?_⟩
        · rw [← hj]
          exact (List.getElem?_set_ne hij).symm
        · intro hmem
          rcases List.mem_cons.mp hmem with h | h
          · exact hij h.symm
          · exact hjn h

/-- a second `reset` right after a first one changes nothing: the first one
left `mInitialized` false, the buffer guard therefore skips, the handle is
already -1 or 0, and the frame payload is already deleted. -/
theorem reset_twice_eq (s : CamState) : reset (reset s) = reset s := by
  unfold reset
  by_cases h1 : s.mInitialized = true ∧ (s.mBuffers).isSome = true <;>
  by_cases h2 : s.mFileDesc = 0 <;>
  by_cases h3 : s.mLastFrameData = true <;>
  simp +decide [h1, h2, h3]

/-- C2 amended: `reset` is idempotent — running it twice equals running it
once, so repeated resets (including on a never-opened device) are safe —
and when the session is fully initialized, with the buffer array present
and its first `mBufCount` records covering every region still mapped (as a
successful `init` leaves it), `reset` unmaps every mapping of the session.
The unmap loop is however guarded by `mInitialized` (line 81), so mappings
left behind by an open attempt that failed after `mmap`-ing some buffers
are not unmapped by `reset` (see the counterexample theorem). -/
theorem reset_idempotent_and_unmaps_when_initialized :
    (∀ s : CamState, reset (reset s) = reset s) ∧
    (∀ (s : CamState) (idxs : List Nat),
      s.mInitialized = true →
      s.mBuffers = some idxs →
      idxs.take s.mBufCount = idxs →
      (∀ j : Nat, s.mappings[j]? = some true → j ∈ idxs) →
      ∀ b ∈ (reset s).mappings, b = false) := by
  refine ⟨reset_twice_eq, ?_⟩
  intro s idxs hini hbuf htake hcov b hb
  have hmap : (reset s).mappings = idxs.foldl unmapOne s.mappings := by
    simp only [reset]
    split_ifs <;> simp_all [List.take_of_length_le]
  rw [hmap] at hb
  rcases mem_foldl_unmapOne idxs s.mappings b hb with h | ⟨j, hj, hjn⟩
  · exact h
  · cases b with
    | false => rfl
    | true => exact absurd (hcov j hj) hjn

/-- an initialized session with two buffers mapped and recorded in the
buffer array, as a successful `init` leaves it. -/
def initializedState : CamState :=
  { mVerbose := false, mInitialized := true, mFileDesc := 3,
    mWidth := 4416, mHeight := 1242, mChannels := 2,
    mBufCount := 2, mBuffers := some [0, 1], mappings := [true, true],
    mLastFrameData := true, mStopCapture := false }

/-- concrete instance of `reset_idempotent_and_unmaps_when_initialized`: on
an initialized session with two mapped buffers, resetting twice equals
resetting once and the first mapping ends unmapped. -/
theorem reset_idempotent_and_unmaps_witness :
    reset (reset initializedState) = reset initializedState ∧
    (reset initializedState).mappings.getD 0 false = false :=
  ⟨reset_idempotent_and_unmaps_when_initialized.1 initializedState,
   by
    have hall := reset_idempotent_and_unmaps_when_initialized.2
      initializedState [0, 1] rfl rfl rfl
      (by
        intro j hj
        match j with
        | 0 => simp
        | 1 => simp
        | n + 2 => simp [initializedState] at hj)
    have h0 : (reset initializedState).mappings.getD 0 false ∈
        (reset initializedState).mappings ∨
        (reset initializedState).mappings.getD 0 false = false := by decide
    rcases h0 with h | h
    · exact hall _ h
    · exact h⟩

/-- device responses making the open attempt fail at the second
`VIDIOC_QUERYBUF` after the first buffer was already mapped. -/
def leakOracle : OpenOracle :=
  { cameraModel := SL_DEVICE.ZED_CBS, statOk := true, isChr := true,
    openFd := some 3, querycapOk := true,
    sFmt := some ⟨4416, 1242, 8832⟩, reqbufs := some 2,
    querybuf := fun i => if i = 0 then some 1000 else none }

/-- C2 counterexample: an open attempt that fails after mapping its first
buffer leaves that mapping in place, and the subsequent `reset` does not
unmap it — the unmap loop is guarded by `mInitialized`, which a failed open
never set — so a buffer mapping created during the session survives
`reset`, contrary to the claim. -/
theorem reset_leaves_mapping_after_failed_open :
    (openCamera leakOracle freshState).1 = false ∧
    (openCamera leakOracle freshState).2.mappings = [true] ∧
    (reset (openCamera leakOracle freshState).2).mappings = [true] := by
  decide

/-! ## C9 : `getLastFrame` (lines 683-701)

The claim's scenario is "no new frame becomes available", so `mNewFrame`
stays false and the loop is driven entirely by the `time_count` counter,
a C `uint64_t`. -/

/-- modulus of the C `uint64_t` arithmetic of `time_count`. -/
def UINT64_LIMIT : Nat := 18446744073709551616

/-- the pre-decrement `--time_count` on a `uint64_t` counter. -/
def u64dec (x : Nat) : Nat := (x + (UINT64_LIMIT - 1)) % UINT64_LIMIT

/-- initial value of `time_count` (line 686): `timeout_msec * 10` in
`uint64_t` arithmetic. -/
def glfTimeCount (timeout_msec : Nat) : Nat := (timeout_msec * 10) % UINT64_LIMIT

/-- polling loop of `getLastFrame` (lines 687-694) when `mNewFrame` never
becomes true: each iteration pre-decrements the counter, returns the null
frame when it reaches 0, and otherwise sleeps 100 microseconds and polls
again. `fuel` bounds the iterations the model can observe: `some k` means
the call returned the null frame at poll iteration `k`; `none` means it was
still polling after `fuel` iterations. -/
def getLastFrameNoFramePolls : Nat → Nat → Option Nat
  | 0, _ => none
  | fuel + 1, tc =>
    if u64dec tc = 0 then some 1
    else
      match getLastFrameNoFramePolls fuel (u64dec tc) with
      | none => none
      | some k => some (k + 1)

/-- on a positive counter below the modulus, the wrap-around decrement is
the plain decrement. -/
theorem u64dec_of_pos (tc : Nat) (h1 : 1 ≤ tc) (h2 : tc < UINT64_LIMIT) :
    u64dec tc = tc - 1 := by
  unfold u64dec
  have h3 : tc + (UINT64_LIMIT - 1) = (tc - 1) + UINT64_LIMIT := by
    unfold UINT64_LIMIT at *
    omega
  rw [h3, Nat.add_mod_right, Nat.mod_eq_of_lt]
  unfold UINT64_LIMIT at *
  omega

/-- with enough fuel, a countdown from a positive `tc` below the modulus
returns at exactly poll iteration `tc`. -/
theorem glfLoop_some (fuel : Nat) :
    ∀ tc, 1 ≤ tc → tc ≤ fuel → tc < UINT64_LIMIT →
      getLastFrameNoFramePolls fuel tc = some tc := by
  induction fuel with
  | zero => intro tc h1 h2 _; omega
  | succ f ih =>
    intro tc h1 h2 hlt
    simp only [getLastFrameNoFramePolls]
    rw [u64dec_of_pos tc h1 hlt]
    by_cases h0 : tc - 1 = 0
    · have htc : tc = 1 := by omega
      subst htc
      simp
    · rw [if_neg h0, ih (tc - 1) (by omega) (by omega) (by omega)]
      simp
      omega

/-- with insufficient fuel, a countdown from a positive `tc` below the
modulus is still polling. -/
theorem glfLoop_none (fuel : Nat) :
    ∀ tc, 1 ≤ tc → tc < UINT64_LIMIT → fuel < tc →
      getLastFrameNoFramePolls fuel tc = none := by
  induction fuel with
  | zero => intro tc _ _ _; rfl
  | succ f ih =>
    intro tc h1 hlt hf
    simp only [getLastFrameNoFramePolls]
    rw [u64dec_of_pos tc h1 hlt]
    have h0 : tc - 1 ≠ 0 := by omega
    rw [if_neg h0, ih (tc - 1) (by omega) (by omega) (by omega)]

/-- C9 amended: for every timeout of at least 1 millisecond whose `*10`
product does not wrap the `uint64_t` counter, if no new frame becomes
available then `getLastFrame` returns the null frame (no crash, no stale
frame) after exactly `timeout_msec*10` poll iterations of roughly 100
microseconds each — i.e. once the timeout of about `timeout_msec`
milliseconds elapses — for any observation fuel of at least that many
iterations. For `timeout_msec = 0` the pre-decremented counter wraps
around and the call keeps polling (see the counterexample theorem). -/
theorem getLastFrame_timeout_returns_null :
    ∀ (timeout_msec fuel : Nat),
      1 ≤ timeout_msec →
      timeout_msec * 10 < UINT64_LIMIT →
      timeout_msec * 10 ≤ fuel →
      getLastFrameNoFramePolls fuel (glfTimeCount timeout_msec) =
        some (timeout_msec * 10) := by
  intro t fuel h1 h2 h3
  have hg : glfTimeCount t = t * 10 := Nat.mod_eq_of_lt h2
  rw [hg]
  exact glfLoop_some fuel (t * 10) (by omega) h3 h2

/-- concrete instance of `getLastFrame_timeout_returns_null`: a 3 ms
timeout with no frame available returns the null frame at poll 30. -/
theorem getLastFrame_timeout_returns_null_witness :
    getLastFrameNoFramePolls 30 (glfTimeCount 3) = some 30 :=
  getLastFrame_timeout_returns_null 3 30 (by decide) (by decide) (by decide)

/-- C9 counterexample: with `timeout_msec = 0` and no frame available, the
claim says the null result comes back once the (zero) timeout elapses, but
the pre-decrement `--time_count` wraps the zero-initialized `uint64_t`
counter to 2^64 - 1, and the call is still polling after 10^9 iterations
(about 28 hours at 100 microseconds per poll). -/
theorem getLastFrame_zero_timeout_wraps :
    glfTimeCount 0 = 0 ∧
    getLastFrameNoFramePolls 1000000000 (glfTimeCount 0) = none := by
  refine ⟨rfl, ?_⟩
  have h0 : glfTimeCount 0 = 0 := rfl
  have hstep : ∀ fuel tc : Nat,
      getLastFrameNoFramePolls (fuel + 1) tc =
        if u64dec tc = 0 then some 1
        else
          match getLastFrameNoFramePolls fuel (u64dec tc) with
          | none => none
          | some k => some (k + 1) := fun _ _ => rfl
  rw [h0, show (1000000000 : Nat) = 999999999 + 1 by rfl, hstep]
  have hd : u64dec 0 = UINT64_LIMIT - 1 := by decide
  have hne : UINT64_LIMIT - 1 ≠ 0 := by decide
  rw [hd, if_neg hne,
    glfLoop_none 999999999 (UINT64_LIMIT - 1) (by decide) (by decide) (by decide)]

/-! ## C10 : frame copy in `grabThreadFunc` (lines 603-681)

The kernel's `v4l2_buffer` fields are unsigned 32-bit values, embedded as
`Nat`; the state below collects what one iteration of the capture loop
reads: the negotiated geometry, the buffer count and the per-buffer record
(`mBuffers[i].length` stored at `mmap` time, line 428, and whether
`mBuffers[i].start` is non-null). -/

/-- fields of `struct v4l2_buffer` filled by `VIDIOC_DQBUF` and read by the
capture loop. -/
structure V4L2Buf where
  bytesused : Nat
  length : Nat
  index : Nat
deriving DecidableEq

/-- state read by one iteration of the capture loop. -/
structure GrabState where
  mWidth : Nat
  mHeight : Nat
  bytesperline : Nat
  bufCount : Nat
  bufLengths : List Nat
  bufStartValid : List Bool
  frameDataValid : Bool
deriving DecidableEq

/-- size in bytes of the frame payload allocated once in `openCamera`
(line 376): `width * height * channels` with `channels` computed on line
358 as `bytesperline / width` in integer division. -/
def framePayloadBytes (s : GrabState) : Nat :=
  s.mWidth * s.mHeight * (s.bytesperline / s.mWidth)

/-- acceptance test of a dequeued buffer (line 639): `bytesused` equals
`length`, the dequeue ioctl returned 0, and the index is within the
allocated buffer count. -/
def grabAccepts (s : GrabState) (ret : Int) (buf : V4L2Buf) : Bool :=
  buf.bytesused = buf.length ∧ ret = 0 ∧ buf.index < s.bufCount

/-- byte count of the `memcpy` of line 655 into the frame payload: the copy
happens for an accepted buffer when additionally the payload is allocated,
the geometry is nonzero and the mapped start is non-null (line 651), and it
copies `mBuffers[index].length` bytes — the length recorded at `mmap` time.
`none` means no copy happens in this iteration. -/
def grabCopiedBytes (s : GrabState) (ret : Int) (buf : V4L2Buf) : Option Nat :=
  if grabAccepts s ret buf ∧ s.frameDataValid ∧ s.mWidth ≠ 0 ∧ s.mHeight ≠ 0 ∧
      s.bufStartValid.getD buf.index false then
    some (s.bufLengths.getD buf.index 0)
  else none

/-! ## Theorems for C10 -/

/-- C10: for every frame accepted by the capture loop, the number of bytes
copied into the shared frame payload equals the mapped buffer's
kernel-reported length — the payload allocation size
(width*height*channels bytes with channels = bytesperline/width in integer
division) plays no role in choosing the count — so the copy stays within
the payload allocation exactly under the unchecked hypothesis that the
buffer length is at most that size; and no bound on the copy is enforced:
there are states where the copied count exceeds the allocation. -/
theorem grab_copy_equals_buffer_length :
    (∀ (s : GrabState) (ret : Int) (buf : V4L2Buf) (n : Nat),
      grabCopiedBytes s ret buf = some n →
      n = s.bufLengths.getD buf.index 0 ∧
      (s.bufLengths.getD buf.index 0 ≤ framePayloadBytes s →
        n ≤ framePayloadBytes s)) ∧
    (∃ (s : GrabState) (ret : Int) (buf : V4L2Buf) (n : Nat),
      grabCopiedBytes s ret buf = some n ∧ framePayloadBytes s < n) := by
  constructor
  · intro s ret buf n hn
    simp only [grabCopiedBytes] at hn
    split_ifs at hn with h
    have hinj := Option.some.inj hn
    exact ⟨hinj.symm, fun hle => by omega⟩
  · exact ⟨⟨2, 1, 4, 1, [10], [true], true⟩, 0, ⟨10, 10, 0⟩, 10, by decide, by decide⟩

/-- concrete instance of `grab_copy_equals_buffer_length`: an accepted
640-byte buffer is copied as exactly 640 bytes. -/
theorem grab_copy_equals_buffer_length_witness :
    (640 : Nat) =
      (GrabState.mk 2 1 4 1 [640] [true] true).bufLengths.getD
        (V4L2Buf.mk 640 640 0).index 0 :=
  (grab_copy_equals_buffer_length.1 ⟨2, 1, 4, 1, [640], [true], true⟩ 0
    ⟨640, 640, 0⟩ 640 (by decide)).1
